import Mathlib

/-!
Verification development for the continuous-voice subsystem of the
ChatEdu repository (`src/services/continuous_voice_service.py`).

The Python module implements a voice-activity-driven conversational loop:
a `VoiceActivityDetector` classifies 30 ms audio frames as speech/silence,
and a `ContinuousVoiceSession` accumulates speech frames, detects the end
of an utterance by trailing silence, and hands the buffered audio to a
transcription service and a RAG pipeline.

This file gives a shallow embedding of that module.  Machine time is
modelled as exact rationals (the source uses `time.time()` floats; none
of the properties verified here depend on float rounding).  External
collaborators (PyAudio, the transcription service, the vector store and
the LLM) are modelled as oracle parameters whose outcomes include an
explicit `raises` alternative, mirroring the `try/except` structure of
the source.  Callbacks (`on_question_detected`, `on_response_ready`,
`on_session_status`) are modelled as recorded invocation intents and are
assumed not to raise.
-/

/-- A Python `bytes` value: a list of byte values (each in 0..255). -/
abbrev ByteStr : Type := List Nat

/-- Session configuration, from `ContinuousVoiceSession.__init__`
(`continuous_voice_service.py` lines 85-97).  The constructor performs no
validation of these values. -/
structure Config where
  silence_threshold : ℚ
  min_speech_duration : ℚ
  max_question_duration : ℚ
deriving DecidableEq, Repr

/-- The default configuration: `silence_threshold=2.0`,
`min_speech_duration=0.5`, `max_question_duration=30.0`. -/
def cfgDefault : Config := ⟨2, 1/2, 30⟩

/-- The speech-detection state of a `ContinuousVoiceSession`: the fields
`is_listening`, `silence_start`, `speech_start` and `speech_frames`
(lines 106-112 of the source).  `silence_start`/`speech_start` are
`None`-able timestamps; `speech_frames` is the utterance buffer.  The
circular `audio_buffer` deque (line 107) is written but never read by the
processing path and is omitted. -/
structure SessState where
  is_listening : Bool
  silence_start : Option ℚ
  speech_start : Option ℚ
  speech_frames : List ByteStr
deriving DecidableEq, Repr

/-- Session state right after `start_session`: listening, no speech or
silence recorded, empty buffer. -/
def initialSess : SessState := ⟨true, none, none, []⟩

/-- `ContinuousVoiceSession._reset_speech_detection` (lines 337-341):
clears `speech_start`, `silence_start` and the `speech_frames` buffer. -/
def resetSpeechDetection (s : SessState) : SessState :=
  { s with speech_start := none, silence_start := none, speech_frames := [] }

/-- Observable terminal events of the turn segmenter, labelling the two
call sites of `_process_speech_buffer` and the short-speech discard:
`complete`  = `_process_speech_buffer` called from `_handle_silence_detected`
              (line 248) with the buffered frames;
`aborted`   = `_reset_speech_detection` called from
              `_handle_silence_detected` (line 251, speech too short);
`forcedCutoff` = `_process_speech_buffer` called from
              `_handle_speech_detected` (line 229, max duration). -/
inductive SegEvent where
  | complete (frames : List ByteStr)
  | aborted
  | forcedCutoff (frames : List ByteStr)
deriving DecidableEq, Repr

/-- The effect of a `_process_speech_buffer` call on the speech-detection
state, labelled with the terminal event.  Lines 255-256: if the buffer is
empty the method returns immediately (no event, no reset); otherwise the
utterance is handed off and, on every exit path of the method, the state
is reset (lines 273, 280, 294, 300).  The hand-off pipeline itself is
modelled separately by `processSpeechBufferPipeline`. -/
def processBufferStep (mk : List ByteStr → SegEvent) (s : SessState) :
    SessState × Option SegEvent :=
  if s.speech_frames.isEmpty then (s, none)
  else (resetSpeechDetection s, some (mk s.speech_frames))

/-- `ContinuousVoiceSession._handle_speech_detected` (lines 209-229):
clear `silence_start`; if `speech_start` is unset, set it to the current
time and start a fresh buffer; append the chunk; then, if
`current_time - speech_start > max_question_duration` (strict comparison,
line 225), process the buffer (forced cutoff). -/
def handleSpeechDetected (cfg : Config) (audio_chunk : ByteStr)
    (current_time : ℚ) (s : SessState) : SessState × Option SegEvent :=
  let start := s.speech_start.getD current_time
  let frames :=
    (match s.speech_start with
     | none => ([] : List ByteStr)
     | some _ => s.speech_frames) ++ [audio_chunk]
  let s3 : SessState := ⟨s.is_listening, none, some start, frames⟩
  if cfg.max_question_duration < current_time - start then
    processBufferStep SegEvent.forcedCutoff s3
  else (s3, none)

/-- `ContinuousVoiceSession._handle_silence_detected` (lines 231-251):
only acts when `speech_start` is set; records `silence_start` on the
first silence frame; when the continuous silence run
`current_time - silence_start` reaches `silence_threshold` (`>=`,
line 241), completes the utterance if the speech duration
`silence_start - speech_start` reaches `min_speech_duration` (`>=`,
line 244) and otherwise discards it.  Note the silence frame itself is
never appended to `speech_frames` (the method does not even receive the
audio chunk). -/
def handleSilenceDetected (cfg : Config) (current_time : ℚ)
    (s : SessState) : SessState × Option SegEvent :=
  match s.speech_start with
  | none => (s, none)
  | some sp =>
      let sil := s.silence_start.getD current_time
      let s1 : SessState := { s with silence_start := some sil }
      if cfg.silence_threshold ≤ current_time - sil then
        if cfg.min_speech_duration ≤ sil - sp then
          processBufferStep SegEvent.complete s1
        else
          (resetSpeechDetection s1, some SegEvent.aborted)
      else (s1, none)

/-- One input to the segmenter: an audio chunk, its arrival timestamp,
and its VAD verdict (the loop at lines 196-201 computes the verdict and
dispatches to the corresponding handler). -/
structure Frame where
  chunk : ByteStr
  time : ℚ
  isSpeech : Bool
deriving DecidableEq, Repr

/-- One iteration of the dispatch in `_audio_processing_loop`
(lines 196-201): feed the frame to the speech or silence handler
according to its VAD verdict. -/
def stepFrame (cfg : Config) (s : SessState) (f : Frame) :
    SessState × Option SegEvent :=
  if f.isSpeech then handleSpeechDetected cfg f.chunk f.time s
  else handleSilenceDetected cfg f.time s

/-- Run the segmenter over a frame sequence, collecting emitted events. -/
def runFrames (cfg : Config) : SessState → List Frame → SessState × List SegEvent
  | s, [] => (s, [])
  | s, f :: fs =>
      match stepFrame cfg s f with
      | (s1, ev) =>
          match runFrames cfg s1 fs with
          | (s2, evs) => (s2, ev.toList ++ evs)

/-! ## Status messages of the processing pipeline (verbatim from the source) -/

/-- Status notified at the start of `_process_speech_buffer` (line 260). -/
def processingMsg : String := "🔄 Processing your question..."

/-- Status notified on transcription failure (line 271). -/
def cantUnderstandMsg : String :=
  "❌ Sorry, I couldn\x27t understand your question. Please try again."

/-- Status notified on empty transcription (line 279). -/
def noSpeechMsg : String := "⚠️ No speech detected. Please speak clearly."

/-- Status notified before the RAG call (line 288). -/
def generatingMsg : String := "🤖 Generating response..."

/-- Status notified after a successful turn (line 295). -/
def readyMsg : String := "🎤 Ready for your next question..."

/-- Status notified by the exception handler of `_process_speech_buffer`
(line 299). -/
def errorProcessingMsg : String := "❌ Error processing question. Please try again."

/-- Answer returned by `_process_rag_query` when the vector search yields
no documents (line 321). -/
def noDocsMsg : String :=
  "I couldn\x27t find relevant information in the documents for your question. Please try rephrasing or ask about topics covered in the loaded documents."

/-- Default answer when the RAG result has no `response` key (line 328). -/
def noResponseMsg : String := "Sorry, I couldn\x27t generate a response."

/-- Answer built from the RAG result error message (line 331). -/
def encounteredErrorMsg (e : String) : String :=
  "I encountered an error while processing your question: " ++ e

/-- Answer returned by the exception handler of `_process_rag_query`
(line 335). -/
def ragExceptionMsg : String :=
  "I\x27m sorry, I encountered an error while processing your question. Please try again."

/-! ## Oracles for the external collaborators -/

/-- Python `str.strip()` with no argument: remove leading and trailing
whitespace. -/
def pyStrip (s : String) : String :=
  ⟨((s.data.dropWhile Char.isWhitespace).reverse.dropWhile Char.isWhitespace).reverse⟩

/-- Result dictionary returned by `voice_service.transcribe_file`, as read
by the controller: `get("success", False)` and `get("text", "")` with the
defaults already applied. -/
structure TranscriptionDict where
  success : Bool
  text : String
deriving DecidableEq, Repr

/-- Outcome of the save-and-transcribe stage (lines 263-266):
either the stage returns a result dictionary, or `create_temp_file` /
`wave` / `transcribe_file` raises (caught by the handler at line 297). -/
inductive TranscribeOutcome where
  | raises
  | result (r : TranscriptionDict)
deriving DecidableEq, Repr

/-- Outcome of `db_manager.search_with_cache(question, k=3)` (line 318):
a (possibly empty) document list, or a raised exception. -/
inductive SearchOutcome where
  | raises
  | docs (ds : List String)
deriving DecidableEq, Repr

/-- Result dictionary returned by `rag_processor.process_rag_query`, with
`success` read via `get("success", False)` and the `response` / `error`
keys kept optional (their defaults are applied at the use sites,
lines 327-331). -/
structure RagResultDict where
  success : Bool
  response : Option String
  error : Option String
deriving DecidableEq, Repr

/-- Outcome of `rag_processor.process_rag_query` (line 324): a result
dictionary, or a raised exception. -/
inductive RagCallOutcome where
  | raises
  | returns (r : RagResultDict)
deriving DecidableEq, Repr

/-- `ContinuousVoiceSession._process_rag_query` (lines 314-335).  The
whole body is wrapped in `try/except`, so a raise from either collaborator
produces the apology string instead of propagating; the function always
returns an answer string. -/
def processRagQuery (se : SearchOutcome) (ra : RagCallOutcome) : String :=
  match se with
  | SearchOutcome.raises => ragExceptionMsg
  | SearchOutcome.docs ds =>
      if ds.isEmpty then noDocsMsg
      else
        match ra with
        | RagCallOutcome.raises => ragExceptionMsg
        | RagCallOutcome.returns r =>
            if r.success then r.response.getD noResponseMsg
            else encounteredErrorMsg (r.error.getD "Unknown error")

/-- Observable output of one `_process_speech_buffer` run: the status
messages notified (in order), the intents to invoke the
`on_question_detected` and `on_response_ready` callbacks, and whether
`_process_rag_query` was entered. -/
structure ProcOutput where
  statuses : List String
  questionDetected : Option String
  responseReady : Option (String × String)
  ragCalled : Bool
deriving DecidableEq, Repr

/-- `ContinuousVoiceSession._process_speech_buffer` (lines 253-301) as a
function of the oracle outcomes.  Control flow mirrors the source:
empty buffer → immediate return (line 255); save/transcribe raising →
exception handler (lines 297-300); failed transcription → lines 268-274;
empty stripped text → lines 276-281; otherwise `on_question_detected`,
the RAG call, `on_response_ready`, reset and the ready status
(lines 283-295).  Every path except the empty-buffer early return ends
in `_reset_speech_detection`. -/
def processSpeechBufferPipeline (s : SessState) (tr : TranscribeOutcome)
    (se : SearchOutcome) (ra : RagCallOutcome) : SessState × ProcOutput :=
  if s.speech_frames.isEmpty then (s, ⟨[], none, none, false⟩)
  else
    match tr with
    | TranscribeOutcome.raises =>
        (resetSpeechDetection s,
         ⟨[processingMsg, errorProcessingMsg], none, none, false⟩)
    | TranscribeOutcome.result r =>
        if r.success then
          let question := pyStrip r.text
          if question = "" then
            (resetSpeechDetection s,
             ⟨[processingMsg, noSpeechMsg], none, none, false⟩)
          else
            let response := processRagQuery se ra
            (resetSpeechDetection s,
             ⟨[processingMsg, generatingMsg, readyMsg],
              some question, some (question, response), true⟩)
        else
          (resetSpeechDetection s,
           ⟨[processingMsg, cantUnderstandMsg], none, none, false⟩)

/-! ## Session start and audio resource handling -/

/-- The audio-resource state of a session: whether the PyAudio handle and
the input stream are held, whether the session is marked active/listening,
and whether the audio thread has been started (lines 100-106, 119-120). -/
structure AudioState where
  audio : Bool
  stream : Bool
  is_active : Bool
  is_listening : Bool
  thread_started : Bool
deriving DecidableEq, Repr

/-- The audio state of a freshly constructed session: nothing acquired. -/
def initialAudio : AudioState := ⟨false, false, false, false, false⟩

/-- Outcome of a collaborator call that can raise. -/
inductive CallOutcome where
  | ok
  | raises
deriving DecidableEq, Repr

/-- `ContinuousVoiceSession._cleanup` (lines 349-361): close the stream
and terminate the PyAudio handle, releasing both.  The close/terminate
calls themselves are modelled as succeeding. -/
def cleanup (s : AudioState) : AudioState :=
  { s with stream := false, audio := false }

/-- `ContinuousVoiceSession.start_session` (lines 128-165): fail fast if
audio libraries are unavailable; otherwise create the PyAudio handle and
open the input stream, either of which may raise — the exception handler
(lines 162-165) runs `_cleanup` and returns `False`.  On success the
session is marked active and listening and the audio thread starts. -/
def startSession (audioAvailable : Bool) (pyInit streamOpen : CallOutcome)
    (s : AudioState) : AudioState × Bool :=
  if audioAvailable = false then (s, false)
  else
    match pyInit with
    | CallOutcome.raises => (cleanup s, false)
    | CallOutcome.ok =>
        let s1 := { s with audio := true }
        match streamOpen with
        | CallOutcome.raises => (cleanup s1, false)
        | CallOutcome.ok =>
            let s2 := { s1 with stream := true, is_active := true,
                                is_listening := true, thread_started := true }
            (s2, true)

/-! ## The audio loop as a sequential action trace -/

/-- Atomic actions of the audio thread, in program order:
`read`       = the `stream.read` call (line 187, the only read in the module);
`feedSpeech` / `feedSilence` = dispatch to `_handle_speech_detected` /
               `_handle_silence_detected` (lines 199, 201);
`processBegin` / `processEnd` = entry into and return from a
               `_process_speech_buffer` hand-off.  The processing call is
               an ordinary synchronous call made from inside the handlers
               on the same audio thread, so in the loop trace its begin
               and end are contiguous by the structure of the code. -/
inductive LoopAction where
  | read
  | feedSpeech
  | feedSilence
  | processBegin
  | processEnd
deriving DecidableEq, Repr

/-- Whether a terminal event is an utterance hand-off (a
`_process_speech_buffer` invocation), as opposed to the short-speech
discard. -/
def isHandOff : SegEvent → Bool
  | SegEvent.complete _ => true
  | SegEvent.forcedCutoff _ => true
  | SegEvent.aborted => false

/-- The actions of one loop iteration: the blocking read, the dispatch to
a handler, and — when the handler hands the buffer off to
`_process_speech_buffer` — the inline processing call, whose entry and
return are contiguous because it is a synchronous call on the same
thread. -/
def loopIterationActs (f : Frame) (ev : Option SegEvent) : List LoopAction :=
  [LoopAction.read,
   if f.isSpeech then LoopAction.feedSpeech else LoopAction.feedSilence] ++
  (match ev with
   | some e =>
       if isHandOff e then [LoopAction.processBegin, LoopAction.processEnd]
       else []
   | none => [])

/-- `_audio_processing_loop` (lines 180-207) as a trace generator: each
iteration reads a chunk, feeds it to the segmenter, and — when the
handler hands the buffer off — performs the processing call inline before
the next read. -/
def audioLoopTrace (cfg : Config) : SessState → List Frame → SessState × List LoopAction
  | s, [] => (s, [])
  | s, f :: fs =>
      let step := stepFrame cfg s f
      let rest := audioLoopTrace cfg step.1 fs
      (rest.1, loopIterationActs f step.2 ++ rest.2)

/-- A trace in which every processing interval is empty: each
`processBegin` is immediately followed by `processEnd`, so no read (and
no segmenter feed) happens while a processing call is in flight. -/
def noActionDuringProcessing : List LoopAction → Bool
  | [] => true
  | LoopAction.processBegin :: LoopAction.processEnd :: rest =>
      noActionDuringProcessing rest
  | LoopAction.processBegin :: _ => false
  | _ :: rest => noActionDuringProcessing rest

/-! ## Voice activity detection -/

/-- Interpret an integer as a 16-bit two\x27s-complement value (the wrap
semantics of numpy `int16` arithmetic). -/
def wrap16 (v : ℤ) : ℤ :=
  let m := v % 65536
  if m < 32768 then m else m - 65536

/-- Decode a byte string as little-endian signed 16-bit PCM samples,
mirroring `np.frombuffer(audio_frame, dtype=np.int16)` (line 74): an
odd-length buffer raises `ValueError`, modelled as `none`. -/
def decodeInt16LE : List Nat → Option (List ℤ)
  | [] => some []
  | [_] => none
  | b0 :: b1 :: rest =>
      (decodeInt16LE rest).map (fun xs => wrap16 ((b0 : ℤ) + 256 * (b1 : ℤ)) :: xs)

/-- `VoiceActivityDetector._energy_based_detection` (lines 68-79).
The source computes `sqrt(mean(audio_data**2)) / 32768.0 > threshold`
inside a `try/except` that returns `False` on any exception:
* an undecodable (odd-length) buffer raises in `np.frombuffer` → `False`;
* an empty buffer makes `np.mean` return `nan`, and `nan > threshold`
  is `False`;
* `audio_data**2` is numpy `int16` arithmetic, so each square wraps
  (`wrap16`); a negative wrapped mean makes `sqrt` return `nan` → `False`;
* otherwise, since `sqrt` is monotone and both sides are nonnegative,
  `sqrt(m)/32768 > threshold` holds exactly when `m > (32768*threshold)^2`,
  which is the form used here to stay in exact rational arithmetic. -/
def energyBasedDetection (audio_frame : List Nat) (threshold : ℚ := 1/100) : Bool :=
  match decodeInt16LE audio_frame with
  | none => false
  | some [] => false
  | some xs =>
      let m : ℚ := ((xs.map (fun x => wrap16 (x * x))).sum : ℤ) / (xs.length : ℚ)
      if m < 0 then false
      else decide ((32768 * threshold) ^ 2 < m)

/-! ## Concrete scenarios used by witnesses and counterexamples -/

/-- The end-to-end scenario of the specification: 20 speech frames
followed by 67 silence frames, 30 ms per frame (frame `k` stamped at
`3k/100` seconds). -/
def framesSpec87 : List Frame :=
  ((List.range 20).map (fun k => ⟨[1], (3 * k : ℚ) / 100, true⟩)) ++
  ((List.range 67).map (fun k => ⟨[1], (3 * (20 + k) : ℚ) / 100, false⟩))

/-- The same scenario extended by one more silence frame (68 in total),
which is when the measured silence run first reaches 2.0 s. -/
def framesSpec88 : List Frame :=
  ((List.range 20).map (fun k => ⟨[1], (3 * k : ℚ) / 100, true⟩)) ++
  ((List.range 68).map (fun k => ⟨[1], (3 * (20 + k) : ℚ) / 100, false⟩))

/-- A configuration whose maximum utterance duration (0.1 s) is below the
minimum speech duration (0.5 s); the constructor accepts it unvalidated. -/
def cfgSmallMax : Config := ⟨2, 1/2, 1/10⟩

/-- A minimal completed-turn scenario: one speech frame at 0 s, silence
frames at 0.6 s and 2.6 s (silence run reaches the 2.0 s threshold on the
last frame). -/
def framesOneTurn : List Frame :=
  [⟨[1], 0, true⟩, ⟨[1], 6/10, false⟩, ⟨[1], 26/10, false⟩]

/-- The loop trace produced by `framesOneTurn`: three read/feed
iterations, the last of which hands the utterance off and runs the
processing call inline. -/
def traceOneTurn : List LoopAction :=
  [LoopAction.read, LoopAction.feedSpeech, LoopAction.read, LoopAction.feedSilence,
   LoopAction.read, LoopAction.feedSilence, LoopAction.processBegin,
   LoopAction.processEnd]

/-- Outcome of the primary WebRTC classifier for one frame: constructed
unavailable, raising at call time, or returning a verdict. -/
inductive VadOutcome where
  | unavailable
  | raises
  | ok (b : Bool)
deriving DecidableEq, Repr

/-- `VoiceActivityDetector.is_speech` (lines 56-66): use the WebRTC
verdict when available and not raising; on unavailability or a raised
exception fall back to energy-based detection for that call. -/
def vadIsSpeech (w : VadOutcome) (audio_frame : List Nat) : Bool :=
  match w with
  | VadOutcome.ok b => b
  | VadOutcome.unavailable => energyBasedDetection audio_frame
  | VadOutcome.raises => energyBasedDetection audio_frame

/-- Decoding an odd-length buffer as 16-bit samples fails, mirroring the
`ValueError` raised by `np.frombuffer` on a buffer whose size is not a
multiple of the item size. -/
theorem decodeInt16LE_odd (l : List Nat) (h : l.length % 2 = 1) :
    decodeInt16LE l = none :=
  match l with
  | [] => by simp at h
  | [_] => rfl
  | _ :: _ :: rest => by
      have ih := decodeInt16LE_odd rest (by simp [List.length_cons] at h; omega)
      simp [decodeInt16LE, ih]

section
attribute [local semireducible] Rat.sub Rat.add Rat.mul Rat.inv Rat.ofScientific

/-- C1: in the accumulating state (speech_start set), when a silence frame
arrives and the continuous silence run has lasted at least
silence_threshold, the segmenter completes the turn (hands the buffered
utterance off) exactly when the speech duration, measured as
silence_start - speech_start, is at least min_speech_duration, and
otherwise aborts and discards the buffer; both comparisons are
non-strict. -/
theorem c1_silence_run_completes_iff_min_speech (cfg : Config) (s : SessState)
    (t sp : ℚ) (hsp : s.speech_start = some sp)
    (hbuf : s.speech_frames ≠ [])
    (hsil : cfg.silence_threshold ≤ t - s.silence_start.getD t) :
    handleSilenceDetected cfg t s =
      if cfg.min_speech_duration ≤ s.silence_start.getD t - sp then
        (resetSpeechDetection s, some (SegEvent.complete s.speech_frames))
      else
        (resetSpeechDetection s, some SegEvent.aborted) := by
  have hne : s.speech_frames.isEmpty = false := by
    cases h : s.speech_frames <;> simp_all
  simp only [handleSilenceDetected, hsp, processBufferStep, resetSpeechDetection]
  simp only [if_pos hsil, hne]
  split <;> simp

/-- Witness for C1 at the exact tie-break boundary: the silence run equals
the threshold (2.0 s) and the speech duration equals min_speech_duration
(0.5 s), and the turn completes. -/
theorem c1_silence_run_completes_iff_min_speech_witness :
    cfgDefault.silence_threshold ≤
      (5/2 : ℚ) - ((⟨true, some (1/2), some 0, [[1]]⟩ : SessState).silence_start.getD (5/2)) ∧
    handleSilenceDetected cfgDefault (5/2) ⟨true, some (1/2), some 0, [[1]]⟩ =
      (resetSpeechDetection ⟨true, some (1/2), some 0, [[1]]⟩,
       some (SegEvent.complete [[1]])) := by
  refine ⟨by decide, ?_⟩
  have h := c1_silence_run_completes_iff_min_speech cfgDefault
    ⟨true, some (1/2), some 0, [[1]]⟩ (5/2) 0 rfl (by decide) (by decide)
  rw [if_pos (by decide)] at h
  exact h

/-- C2 counterexample: on the specified scenario — 20 speech frames then
67 silence frames at 30 ms per frame, default thresholds — the segmenter
emits no event at all (the silence run measured from the first silence
timestamp is 66 intervals = 1.98 s < 2.0 s), so no COMPLETE utterance,
let alone one with 87 frames, is handed off. -/
theorem c2_spec_scenario_counterexample :
    framesSpec87.length = 87 ∧
    (runFrames cfgDefault initialSess framesSpec87).2 = [] := by
  exact ⟨by decide, by decide⟩

/-- C2 amended: silence frames are never appended to the utterance buffer
(the silence handler does not receive the chunk), and the silence run is
measured between silence-frame timestamps, so with 20 speech frames and
68 silence frames at 30 ms per frame the segmenter emits exactly one
COMPLETE whose utterance contains the 20 speech frames, returning to the
initial state. -/
theorem c2_amended_complete_carries_only_speech_frames :
    framesSpec88.length = 88 ∧
    runFrames cfgDefault initialSess framesSpec88 =
      (initialSess, [SegEvent.complete (List.replicate 20 [1])]) := by
  exact ⟨by decide, by decide⟩

/-- C3 counterexample: a speech frame arriving when the elapsed time since
speech_start is exactly max_utterance_duration (30 s) does not trigger a
forced cutoff — the source comparison is strict — so no event is emitted
with elapsed time at least the maximum. -/
theorem c3_exact_max_duration_counterexample :
    cfgDefault.max_question_duration ≤ (30 : ℚ) - 0 ∧
    (runFrames cfgDefault initialSess [⟨[1], 0, true⟩, ⟨[2], 30, true⟩]).2 = [] := by
  exact ⟨by decide, by decide⟩

/-- C3 amended: the maximum-duration check runs only on speech frames and
is strict: on an arriving speech frame the segmenter emits exactly one
forced cutoff carrying the buffer as-is (current frame included) and
resets, precisely when the elapsed time strictly exceeds
max_utterance_duration; at or below the maximum no event is emitted, so
for an uninterrupted speech run with frames at most one frame apart the
cutoff lands in (max_duration, max_duration + one frame]. -/
theorem c3_amended_strict_cutoff_on_speech_frames (cfg : Config) (s : SessState)
    (c : ByteStr) (t sp : ℚ) (hsp : s.speech_start = some sp) :
    (cfg.max_question_duration < t - sp →
      handleSpeechDetected cfg c t s =
        (resetSpeechDetection s,
         some (SegEvent.forcedCutoff (s.speech_frames ++ [c])))) ∧
    (t - sp ≤ cfg.max_question_duration →
      (handleSpeechDetected cfg c t s).2 = none) := by
  simp only [handleSpeechDetected, hsp, Option.getD_some, processBufferStep,
    resetSpeechDetection]
  constructor
  · intro h
    simp [h]
  · intro h
    simp [not_lt.mpr h]

/-- Witness for C3 amended: a speech frame at 31 s on an utterance started
at 0 s (elapsed 31 s > 30 s) forces the cutoff with the buffer as-is. -/
theorem c3_amended_strict_cutoff_on_speech_frames_witness :
    cfgDefault.max_question_duration < (31 : ℚ) - 0 ∧
    handleSpeechDetected cfgDefault [2] 31 ⟨true, none, some 0, [[1]]⟩ =
      (resetSpeechDetection ⟨true, none, some 0, [[1]]⟩,
       some (SegEvent.forcedCutoff [[1], [2]])) := by
  refine ⟨by decide, ?_⟩
  exact (c3_amended_strict_cutoff_on_speech_frames cfgDefault
    ⟨true, none, some 0, [[1]]⟩ [2] 31 0 rfl).1 (by decide)

/-- C4 counterexample: the session constructor does not validate the
configuration, so with max_question_duration = 0.1 s below
min_speech_duration = 0.5 s a forced cutoff hands off an utterance whose
speech duration is 0.2 s, strictly less than min_speech_duration. -/
theorem c4_handoff_below_min_counterexample :
    (runFrames cfgSmallMax initialSess [⟨[1], 0, true⟩, ⟨[2], 1/5, true⟩]).2 =
      [SegEvent.forcedCutoff [[1], [2]]] ∧
    (1/5 : ℚ) - 0 < cfgSmallMax.min_speech_duration := by
  exact ⟨by decide, by decide⟩

/-- C4 amended: provided the configuration satisfies
min_speech_duration ≤ max_utterance_duration (true of the defaults),
every utterance handed off by a terminal event has speech duration at
least min_speech_duration: a completion certifies
silence_start - speech_start ≥ min directly, and a forced cutoff implies
elapsed > max ≥ min. -/
theorem c4_amended_handoff_duration_at_least_min (cfg : Config)
    (hcfg : cfg.min_speech_duration ≤ cfg.max_question_duration)
    (s : SessState) (f : Frame) :
    (∀ frames, (stepFrame cfg s f).2 = some (SegEvent.complete frames) →
       ∃ sp, s.speech_start = some sp ∧
         cfg.min_speech_duration ≤ s.silence_start.getD f.time - sp) ∧
    (∀ frames, (stepFrame cfg s f).2 = some (SegEvent.forcedCutoff frames) →
       cfg.min_speech_duration ≤ f.time - s.speech_start.getD f.time) := by
  cases hf : f.isSpeech
  · constructor
    · intro frames h
      simp only [stepFrame, hf, Bool.false_eq_true, if_false] at h
      cases hss : s.speech_start with
      | none => simp [handleSilenceDetected, hss] at h
      | some sp =>
          refine ⟨sp, rfl, ?_⟩
          simp only [handleSilenceDetected, hss, processBufferStep] at h
          split_ifs at h <;> simp_all
    · intro frames h
      simp only [stepFrame, hf, Bool.false_eq_true, if_false] at h
      cases hss : s.speech_start with
      | none => simp [handleSilenceDetected, hss] at h
      | some sp =>
          simp only [handleSilenceDetected, hss, processBufferStep] at h
          split_ifs at h <;> simp_all
  · constructor
    · intro frames h
      simp only [stepFrame, hf, if_true, handleSpeechDetected, processBufferStep] at h
      split_ifs at h <;> simp_all
    · intro frames h
      simp only [stepFrame, hf, if_true, handleSpeechDetected, processBufferStep] at h
      cases hss : s.speech_start with
      | none =>
          simp only [hss, Option.getD_none] at h ⊢
          split_ifs at h with h1 h2 <;> simp_all
          · linarith
      | some sp =>
          simp only [hss, Option.getD_some] at h ⊢
          split_ifs at h with h1 h2 <;> simp_all
          · linarith

/-- Witness for C4 amended at the default configuration: a forced cutoff
at 31 s on an utterance started at 0 s hands off with duration 31 s ≥
0.5 s. -/
theorem c4_amended_handoff_duration_at_least_min_witness :
    cfgDefault.min_speech_duration ≤ cfgDefault.max_question_duration ∧
    cfgDefault.min_speech_duration ≤
      (31 : ℚ) - ((⟨true, none, some 0, [[1]]⟩ : SessState).speech_start.getD 31) := by
  refine ⟨by decide, ?_⟩
  exact (c4_amended_handoff_duration_at_least_min cfgDefault (by decide)
    ⟨true, none, some 0, [[1]]⟩ ⟨[2], 31, true⟩).2 [[1], [2]] (by decide)

/-- C5: after every terminal event of the segmenter the state is the full
reset of the pre-step state (speech_start and silence_start cleared,
buffer empty, listening flag preserved), and every exit path of the
processing pipeline — transcription failure, empty transcription,
success, and a raised exception — likewise leaves the state fully
reset. -/
theorem c5_state_reset_after_terminal_events :
    (∀ (cfg : Config) (s : SessState) (f : Frame) (s1 : SessState) (ev : SegEvent),
        stepFrame cfg s f = (s1, some ev) → s1 = resetSpeechDetection s) ∧
    (∀ (s : SessState) (tr : TranscribeOutcome) (se : SearchOutcome)
        (ra : RagCallOutcome),
        s.speech_frames ≠ [] →
        (processSpeechBufferPipeline s tr se ra).1 = resetSpeechDetection s) := by
  constructor
  · intro cfg s f s1 ev h
    cases hf : f.isSpeech
    · simp only [stepFrame, hf, Bool.false_eq_true, if_false] at h
      cases hss : s.speech_start with
      | none => simp [handleSilenceDetected, hss] at h
      | some sp =>
          simp only [handleSilenceDetected, hss, processBufferStep] at h
          split_ifs at h <;> simp_all [resetSpeechDetection]
    · simp only [stepFrame, hf, if_true, handleSpeechDetected, processBufferStep] at h
      split_ifs at h <;> simp_all [resetSpeechDetection]
  · intro s tr se ra hbuf
    have hne : s.speech_frames.isEmpty = false := by
      cases h : s.speech_frames <;> simp_all
    cases tr with
    | raises => simp [processSpeechBufferPipeline, hne]
    | result r =>
        by_cases hs : r.success <;>
          by_cases hq : pyStrip r.text = "" <;>
            simp [processSpeechBufferPipeline, hne, hs, hq]

/-- Witness for C5: a completing silence frame resets the segmenter, and
a processing run whose transcription raises resets it as well. -/
theorem c5_state_reset_after_terminal_events_witness :
    (stepFrame cfgDefault ⟨true, some 1, some 0, [[1]]⟩ ⟨[], 3, false⟩).1 =
      resetSpeechDetection ⟨true, some 1, some 0, [[1]]⟩ ∧
    (processSpeechBufferPipeline ⟨true, some 1, some 0, [[1]]⟩
        TranscribeOutcome.raises (SearchOutcome.docs []) RagCallOutcome.raises).1 =
      resetSpeechDetection ⟨true, some 1, some 0, [[1]]⟩ := by
  constructor
  · exact c5_state_reset_after_terminal_events.1 cfgDefault
      ⟨true, some 1, some 0, [[1]]⟩ ⟨[], 3, false⟩ _
      (SegEvent.complete [[1]]) (by decide)
  · exact c5_state_reset_after_terminal_events.2
      ⟨true, some 1, some 0, [[1]]⟩ TranscribeOutcome.raises
      (SearchOutcome.docs []) RagCallOutcome.raises (by decide)

/-- C6: when transcription of a completed utterance reports failure or
yields empty (stripped) text, the pipeline surfaces an error-style status,
invokes neither the question nor the answer callback, never enters the
RAG step, resets the detection state and stays in the listening state. -/
theorem c6_transcription_failure_skips_rag (s : SessState)
    (hbuf : s.speech_frames ≠ [])
    (r : TranscriptionDict) (se : SearchOutcome) (ra : RagCallOutcome)
    (hfail : r.success = false ∨ pyStrip r.text = "") :
    (processSpeechBufferPipeline s (TranscribeOutcome.result r) se ra).1 =
        resetSpeechDetection s ∧
    ((processSpeechBufferPipeline s (TranscribeOutcome.result r) se ra).1).is_listening =
        s.is_listening ∧
    (processSpeechBufferPipeline s (TranscribeOutcome.result r) se ra).2.responseReady =
        none ∧
    (processSpeechBufferPipeline s (TranscribeOutcome.result r) se ra).2.questionDetected =
        none ∧
    (processSpeechBufferPipeline s (TranscribeOutcome.result r) se ra).2.ragCalled =
        false ∧
    ((processSpeechBufferPipeline s (TranscribeOutcome.result r) se ra).2.statuses =
        [processingMsg, cantUnderstandMsg] ∨
     (processSpeechBufferPipeline s (TranscribeOutcome.result r) se ra).2.statuses =
        [processingMsg, noSpeechMsg]) := by
  have hne : s.speech_frames.isEmpty = false := by
    cases h : s.speech_frames <;> simp_all
  rcases hfail with hf | hf
  · simp [processSpeechBufferPipeline, hne, hf, resetSpeechDetection]
  · by_cases hs : r.success <;>
      simp [processSpeechBufferPipeline, hne, hs, hf, resetSpeechDetection]

/-- Witness for C6: a failed transcription result leads to no answer
callback and no RAG call. -/
theorem c6_transcription_failure_skips_rag_witness :
    (processSpeechBufferPipeline ⟨true, some 1, some 0, [[1]]⟩
        (TranscribeOutcome.result ⟨false, "x"⟩) (SearchOutcome.docs [])
        RagCallOutcome.raises).2.responseReady = none ∧
    (processSpeechBufferPipeline ⟨true, some 1, some 0, [[1]]⟩
        (TranscribeOutcome.result ⟨false, "x"⟩) (SearchOutcome.docs [])
        RagCallOutcome.raises).2.ragCalled = false := by
  refine ⟨?_, ?_⟩
  · exact (c6_transcription_failure_skips_rag ⟨true, some 1, some 0, [[1]]⟩
      (by decide) ⟨false, "x"⟩ (SearchOutcome.docs []) RagCallOutcome.raises
      (Or.inl rfl)).2.2.1
  · exact (c6_transcription_failure_skips_rag ⟨true, some 1, some 0, [[1]]⟩
      (by decide) ⟨false, "x"⟩ (SearchOutcome.docs []) RagCallOutcome.raises
      (Or.inl rfl)).2.2.2.2.1

/-- C7: for a successfully transcribed non-empty question, whenever the
RAG step fails — the vector search raises, no documents are found, the
generation call raises, or it returns an unsuccessful result — the
pipeline still delivers an answer string through the answer-ready
callback, and that answer is one of the error-describing strings; the
RAG helper itself returns a string on every outcome, never
propagating. -/
theorem c7_rag_failure_still_answers (s : SessState)
    (hbuf : s.speech_frames ≠ [])
    (r : TranscriptionDict) (hs : r.success = true) (hq : pyStrip r.text ≠ "")
    (se : SearchOutcome) (ra : RagCallOutcome)
    (hfail : se = SearchOutcome.raises ∨ se = SearchOutcome.docs [] ∨
             ra = RagCallOutcome.raises ∨
             (∃ rr, ra = RagCallOutcome.returns rr ∧ rr.success = false)) :
    (processSpeechBufferPipeline s (TranscribeOutcome.result r) se ra).2.responseReady =
        some (pyStrip r.text, processRagQuery se ra) ∧
    (processRagQuery se ra = ragExceptionMsg ∨
     processRagQuery se ra = noDocsMsg ∨
     ∃ e, processRagQuery se ra = encounteredErrorMsg e) := by
  have hne : s.speech_frames.isEmpty = false := by
    cases h : s.speech_frames <;> simp_all
  constructor
  · simp [processSpeechBufferPipeline, hne, hs, hq]
  · rcases hfail with hf | hf | hf | ⟨rr, hf, hrr⟩
    · subst hf; simp [processRagQuery]
    · subst hf; simp [processRagQuery]
    · subst hf
      cases se with
      | raises => simp [processRagQuery]
      | docs ds => by_cases hd : ds.isEmpty <;> simp [processRagQuery, hd]
    · subst hf
      cases se with
      | raises => simp [processRagQuery]
      | docs ds => by_cases hd : ds.isEmpty <;> simp [processRagQuery, hd, hrr]

/-- Witness for C7: an unsuccessful RAG result with error text still
reaches the answer callback as an error-describing answer. -/
theorem c7_rag_failure_still_answers_witness :
    (processSpeechBufferPipeline ⟨true, some 1, some 0, [[1]]⟩
        (TranscribeOutcome.result ⟨true, "q"⟩) (SearchOutcome.docs ["d"])
        (RagCallOutcome.returns ⟨false, none, some "boom"⟩)).2.responseReady =
      some (pyStrip "q", processRagQuery (SearchOutcome.docs ["d"])
        (RagCallOutcome.returns ⟨false, none, some "boom"⟩)) ∧
    (processRagQuery (SearchOutcome.docs ["d"])
        (RagCallOutcome.returns ⟨false, none, some "boom"⟩) = ragExceptionMsg ∨
     processRagQuery (SearchOutcome.docs ["d"])
        (RagCallOutcome.returns ⟨false, none, some "boom"⟩) = noDocsMsg ∨
     ∃ e, processRagQuery (SearchOutcome.docs ["d"])
        (RagCallOutcome.returns ⟨false, none, some "boom"⟩) =
          encounteredErrorMsg e) := by
  exact c7_rag_failure_still_answers ⟨true, some 1, some 0, [[1]]⟩ (by decide)
    ⟨true, "q"⟩ rfl (by decide) (SearchOutcome.docs ["d"])
    (RagCallOutcome.returns ⟨false, none, some "boom"⟩)
    (Or.inr (Or.inr (Or.inr ⟨⟨false, none, some "boom"⟩, rfl, rfl⟩)))

/-- C8: starting from a fresh session, if the audio libraries are missing
or creating the PyAudio handle or opening the input stream raises,
`start_session` returns failure, the session is not marked active, the
audio thread is not started, and no audio resource remains held. -/
theorem c8_start_failure_leaves_session_stopped (avail : Bool)
    (pyInit streamOpen : CallOutcome) (s : AudioState)
    (hinit : s.audio = false ∧ s.stream = false ∧ s.is_active = false ∧
             s.thread_started = false)
    (hfail : avail = false ∨ pyInit = CallOutcome.raises ∨
             streamOpen = CallOutcome.raises) :
    (startSession avail pyInit streamOpen s).2 = false ∧
    (startSession avail pyInit streamOpen s).1.is_active = false ∧
    (startSession avail pyInit streamOpen s).1.thread_started = false ∧
    (startSession avail pyInit streamOpen s).1.audio = false ∧
    (startSession avail pyInit streamOpen s).1.stream = false := by
  obtain ⟨h1, h2, h3, h4⟩ := hinit
  rcases hfail with hf | hf | hf
  · simp [startSession, hf, h1, h2, h3, h4]
  · cases avail <;> simp [startSession, hf, cleanup, h1, h2, h3, h4]
  · cases avail <;> cases pyInit <;>
      simp [startSession, hf, cleanup, h1, h2, h3, h4]

/-- Witness for C8: the stream open raising after the PyAudio handle was
acquired leaves nothing held and the session stopped. -/
theorem c8_start_failure_leaves_session_stopped_witness :
    (startSession true CallOutcome.ok CallOutcome.raises initialAudio).2 = false ∧
    (startSession true CallOutcome.ok CallOutcome.raises initialAudio).1.is_active =
      false ∧
    (startSession true CallOutcome.ok CallOutcome.raises
        initialAudio).1.thread_started = false ∧
    (startSession true CallOutcome.ok CallOutcome.raises initialAudio).1.audio =
      false ∧
    (startSession true CallOutcome.ok CallOutcome.raises initialAudio).1.stream =
      false := by
  exact c8_start_failure_leaves_session_stopped true CallOutcome.ok
    CallOutcome.raises initialAudio (by decide) (Or.inr (Or.inr rfl))

/-- C9 counterexample: on a concrete completed turn the loop trace shows
the processing call with no read anywhere strictly between its begin and
end — the call is synchronous on the audio thread, so the loop does not
keep reading frames while the utterance is transcribed and answered. -/
theorem c9_no_read_inside_processing_counterexample :
    (audioLoopTrace cfgDefault initialSess framesOneTurn).2 = traceOneTurn ∧
    (∃ i : Fin traceOneTurn.length, traceOneTurn.get i = LoopAction.processBegin) ∧
    ¬ (∃ i j k : Fin traceOneTurn.length, i < j ∧ j < k ∧
        traceOneTurn.get i = LoopAction.processBegin ∧
        traceOneTurn.get j = LoopAction.read ∧
        traceOneTurn.get k = LoopAction.processEnd) := by
  refine ⟨by decide, by decide, by decide⟩

/-- C9 amended: processing runs synchronously on the audio-loop thread —
in every generated loop trace, each entry into the processing call is
immediately followed by its return, so the loop neither reads frames nor
feeds the segmenter while a processing call is in flight; the slow call
blocks reading rather than running concurrently with it, and the
segmenter state is reset by the hand-off itself, so it is not corrupted
for the next utterance. -/
theorem c9_amended_processing_is_synchronous (cfg : Config) (fs : List Frame) :
    ∀ s : SessState, noActionDuringProcessing (audioLoopTrace cfg s fs).2 = true := by
  induction fs with
  | nil => intro s; rfl
  | cons f fs ih =>
      intro s
      have htail := ih (stepFrame cfg s f).1
      simp only [audioLoopTrace]
      cases hsp : f.isSpeech <;>
        cases hev : (stepFrame cfg s f).2 with
        | none =>
            simpa [loopIterationActs, hsp, noActionDuringProcessing] using htail
        | some e =>
            cases e <;>
              simpa [loopIterationActs, hsp, hev, noActionDuringProcessing,
                isHandOff] using htail

/-- C10: the energy-based fallback detector is a total boolean function
of the frame bytes: a frame that cannot be decoded as 16-bit PCM
(odd length) is classified as silence, the empty frame (whose mean energy
is NaN in the source) is classified as silence, and when the primary
WebRTC classifier raises, `is_speech` falls back to the energy detector
for that call instead of propagating the exception to the audio loop. -/
theorem c10_energy_fallback_total_silence_on_failure (frame : List Nat)
    (hodd : frame.length % 2 = 1) :
    energyBasedDetection frame = false ∧
    vadIsSpeech VadOutcome.raises frame = false ∧
    energyBasedDetection [] = false := by
  have hdec := decodeInt16LE_odd frame hodd
  refine ⟨?_, ?_, rfl⟩
  · simp [energyBasedDetection, hdec]
  · simp [vadIsSpeech, energyBasedDetection, hdec]

/-- Witness for C10 on the one-byte frame. -/
theorem c10_energy_fallback_total_silence_on_failure_witness :
    energyBasedDetection [0] = false ∧
    vadIsSpeech VadOutcome.raises [0] = false ∧
    energyBasedDetection [] = false := by
  exact c10_energy_fallback_total_silence_on_failure [0] (by decide)

end
